import Mathlib

/-!
Verification of the record-resolution and mutation-safety core of the
Cloudflare DNS CLI (cf-dns.py).  Python strings are embedded as their
character sequences (`List Char`), optional values as `Option`, and the
remote HTTP API as a record of response functions; every command returns
the list of requests it issued together with its outcome (a value, or
process termination with an exit code).
-/

namespace CfDns

/-- Python strings, embedded as character sequences. -/
abbrev Str := List Char

/-- Python str.strip(): drop leading and trailing whitespace. -/
def pyStrip (s : Str) : Str :=
  ((s.dropWhile Char.isWhitespace).reverse.dropWhile Char.isWhitespace).reverse

/-- Python str.lower() on the ASCII strings the tool handles. -/
def pyLower (s : Str) : Str := s.map Char.toLower

/-- Python str.upper() on the ASCII strings the tool handles. -/
def pyUpper (s : Str) : Str := s.map Char.toUpper

/-- Python truthiness of a string: nonempty. -/
def truthyS (s : Str) : Bool := !s.isEmpty

/-- Python truthiness of an optional string: None and the empty string are falsy. -/
def truthyO : Option Str → Bool
  | none => false
  | some s => truthyS s

/-- A zone as the code reads it from a zones listing response (id, name). -/
structure Zone where
  id : Str
  name : Str
deriving DecidableEq

/-- A DNS record as the code reads it from a response: the dictionary keys
cf-dns.py accesses.  ttl and proxied may be absent (None). -/
structure DnsRecord where
  id : Str
  rtype : Str
  name : Str
  content : Str
  ttl : Option Int
  proxied : Option Bool
deriving DecidableEq

/-- The outgoing JSON body built by build_payload: ttl and proxied keys are
optional. -/
structure Payload where
  ptype : Str
  name : Str
  content : Str
  ttl : Option Int
  proxied : Option Bool
deriving DecidableEq

/-- Result of a code path: a value, or process termination via die / sys.exit
with the given exit code. -/
inductive Outcome (α : Type) where
  | ok : α → Outcome α
  | exit : Nat → Outcome α
deriving DecidableEq

/-- Source normalize_name (cf-dns.py lines 93-94): return name unchanged when it
equals the zone or ends with "." + zone, else append "." + zone. -/
def normalize_name (zone name : Str) : Str :=
  if name = zone ∨ ('.' :: zone) <:+ name then name else name ++ '.' :: zone

/-- Source build_payload (lines 96-100): type, name, content always present;
ttl included when given; proxied included only when given and the type is one
of A, AAAA, CNAME. -/
def build_payload (name rtype content : Str) (ttl : Option Int)
    (proxied : Option Bool) : Payload :=
  { ptype := rtype, name := name, content := content, ttl := ttl,
    proxied :=
      if rtype = "A".toList ∨ rtype = "AAAA".toList ∨ rtype = "CNAME".toList
      then proxied else none }

/-- The payload computation of cmd_update (lines 165 and 167-172 plus
build_payload): uppercase a truthy type flag, merge each field with the
resolved current record, and build the outgoing payload. -/
def cmd_update_payload (zone : Str) (name0 rtype0 content0 : Option Str)
    (ttl0 : Option Int) (proxied0 : Option Bool) (current : DnsRecord) : Payload :=
  let rtype1 : Option Str := match rtype0 with
    | some s => if truthyS s then some (pyUpper s) else none
    | none => none
  let new_name : Str := match name0 with
    | some s => if truthyS s then normalize_name zone s else current.name
    | none => current.name
  let new_type : Str := match rtype1 with
    | some s => if truthyS s then s else current.rtype
    | none => current.rtype
  let new_content : Str := content0.getD current.content
  let new_ttl : Option Int := match ttl0 with
    | some t => some t
    | none => current.ttl
  let prox_eff : Option Bool := match proxied0 with
    | some b => some b
    | none => current.proxied
  build_payload new_name new_type new_content new_ttl prox_eff

lemma truthyS_of_ne_nil {s : Str} (h : s ≠ []) : truthyS s = true := by
  cases s with
  | nil => exact absurd rfl h
  | cons a l => rfl

lemma truthyS_pyUpper (s : Str) : truthyS (pyUpper s) = truthyS s := by
  cases s <;> simp [truthyS, pyUpper]

/-- Claim C5: normalize_name leaves a name equal to the zone or ending in
"." + zone unchanged, appends "." + zone otherwise, and is idempotent. -/
theorem normalize_name_spec (z n : Str) :
    ((n = z ∨ ('.' :: z) <:+ n) → normalize_name z n = n)
    ∧ (¬(n = z ∨ ('.' :: z) <:+ n) → normalize_name z n = n ++ '.' :: z)
    ∧ normalize_name z (normalize_name z n) = normalize_name z n := by
  refine ⟨fun h => by simp [normalize_name, h],
          fun h => by simp [normalize_name, h], ?_⟩
  by_cases h : n = z ∨ ('.' :: z) <:+ n
  · simp [normalize_name, h]
  · have h1 : normalize_name z n = n ++ '.' :: z := by simp [normalize_name, h]
    have h2 : ('.' :: z) <:+ n ++ '.' :: z := List.suffix_append n ('.' :: z)
    rw [h1]
    simp [normalize_name, h2]

/-- Witness for C5 at zone example.com: the bare label www is expanded, and
an already fully qualified www.example.com is left unchanged. -/
theorem normalize_name_spec_witness :
    normalize_name "example.com".toList "www".toList
        = "www".toList ++ '.' :: "example.com".toList
    ∧ normalize_name "example.com".toList "www.example.com".toList
        = "www.example.com".toList :=
  ⟨(normalize_name_spec "example.com".toList "www".toList).2.1 (by decide),
   (normalize_name_spec "example.com".toList "www.example.com".toList).1 (by decide)⟩

/-- Claim C1 as stated is false: when the update command supplies the bare name
www in zone example.com, the outgoing name field is the zone-normalized
www.example.com — neither the user-supplied value www nor the current record
name old.example.com. -/
theorem cmd_update_payload_name_not_raw :
    (cmd_update_payload "example.com".toList (some "www".toList) none none none none
        ⟨"rid1".toList, "A".toList, "old.example.com".toList, "1.2.3.4".toList,
          some 300, some true⟩).name
      ≠ "www".toList := by decide

/-- Claim C1 amended: each outgoing payload field is the user-supplied value if
given, else the current record value — except that a supplied name is first
zone-normalized, a supplied type is uppercased, and the proxied field is kept
in the payload only when the effective type is A, AAAA or CNAME. -/
theorem cmd_update_payload_merge (zone : Str) (name0 rtype0 content0 : Option Str)
    (ttl0 : Option Int) (proxied0 : Option Bool) (current : DnsRecord)
    (hn : name0 ≠ some []) (ht : rtype0 ≠ some []) :
    cmd_update_payload zone name0 rtype0 content0 ttl0 proxied0 current =
      { ptype := (rtype0.map pyUpper).getD current.rtype,
        name := (name0.map (normalize_name zone)).getD current.name,
        content := content0.getD current.content,
        ttl := ttl0 <|> current.ttl,
        proxied :=
          if (rtype0.map pyUpper).getD current.rtype = "A".toList
              ∨ (rtype0.map pyUpper).getD current.rtype = "AAAA".toList
              ∨ (rtype0.map pyUpper).getD current.rtype = "CNAME".toList
          then (proxied0 <|> current.proxied) else none } := by
  cases name0 with
  | none =>
    cases rtype0 with
    | none =>
      cases ttl0 <;> cases proxied0 <;>
        simp [cmd_update_payload, build_payload]
    | some t =>
      have ht2 : truthyS t = true := truthyS_of_ne_nil (fun h => ht (by rw [h]))
      cases ttl0 <;> cases proxied0 <;>
        simp [cmd_update_payload, build_payload, ht2, truthyS_pyUpper]
  | some m =>
    have hm2 : truthyS m = true := truthyS_of_ne_nil (fun h => hn (by rw [h]))
    cases rtype0 with
    | none =>
      cases ttl0 <;> cases proxied0 <;>
        simp [cmd_update_payload, build_payload, hm2]
    | some t =>
      have ht2 : truthyS t = true := truthyS_of_ne_nil (fun h => ht (by rw [h]))
      cases ttl0 <;> cases proxied0 <;>
        simp [cmd_update_payload, build_payload, hm2, ht2, truthyS_pyUpper]

/-- Witness for the amended C1 at the claim's own example: current record
(A, www.example.com, 1.2.3.4, ttl 300, proxied true) with only content
5.6.7.8 supplied yields the merged payload with the new content and every
other field taken from the current record. -/
theorem cmd_update_payload_merge_witness :
    cmd_update_payload "example.com".toList none none (some "5.6.7.8".toList)
        none none
        ⟨"rid1".toList, "A".toList, "www.example.com".toList, "1.2.3.4".toList,
          some 300, some true⟩
      = { ptype := "A".toList, name := "www.example.com".toList,
          content := "5.6.7.8".toList, ttl := some 300, proxied := some true } := by
  have h := cmd_update_payload_merge "example.com".toList none none
      (some "5.6.7.8".toList) none none
      ⟨"rid1".toList, "A".toList, "www.example.com".toList, "1.2.3.4".toList,
        some 300, some true⟩
      (by decide) (by decide)
  rw [h]; decide

/-- One page of a paged listing response: the result array and the
result_info total_pages value when present. -/
structure Page (α : Type) where
  result : List α
  total_pages : Option Nat
deriving DecidableEq

/-- The HTTP requests cf-dns.py can issue, abstracted to their method, path
and query parameters. -/
inductive ApiReq where
  | listZonesByName (name : Str)
  | listZonesPage (page per : Nat)
  | getRecord (zid rid : Str)
  | queryByTypeName (zid rtype fqdn : Str)
  | listPage (zid : Str) (page per : Nat) (rtype : Option Str)
  | createRecord (zid : Str) (p : Payload)
  | updateRecord (zid rid : Str) (p : Payload)
  | deleteRecord (zid rid : Str)
deriving DecidableEq

/-- The remote API as seen through http_json: each field gives the parsed
successful response for one request shape, or none when http_json would
terminate the process with exit code 1 (HTTP, network or API error). -/
structure Api where
  getZones : Str → Option (List Zone)
  getZonesPage : Nat → Nat → Option (Page Zone)
  getRecord : Str → Str → Option DnsRecord
  queryRecords : Str → Str → Str → Option (List DnsRecord)
  listPage : Str → Nat → Nat → Option Str → Option (Page DnsRecord)
  createRecord : Str → Payload → Option DnsRecord
  updateRecord : Str → Str → Payload → Option DnsRecord
  deleteRecord : Str → Str → Option Unit

/-- Source zone_id (lines 69-73): one exact-name zone query; an empty result
dies with exit code 3; otherwise the id of the first entry is returned.  The
pair also records the single request issued. -/
def zone_id (api : Api) (zone_name : Str) : List ApiReq × Outcome Str :=
  match api.getZones zone_name with
  | none => ([.listZonesByName zone_name], .exit 1)
  | some [] => ([.listZonesByName zone_name], .exit 3)
  | some (z :: _) => ([.listZonesByName zone_name], .ok z.id)

/-- Result of find_record: the requests issued, whether the interactive
disambiguation prompt was shown, and the outcome. -/
structure FindResult where
  reqs : List ApiReq
  prompted : Bool
  outcome : Outcome (Str × DnsRecord)
deriving DecidableEq

/-- Source find_record (lines 102-123).  tty models sys.stdin.isatty() and
inp the reply typed at the disambiguation prompt. -/
def find_record (api : Api) (tty : Bool) (inp : Str) (zid : Str)
    (rid name rtype : Option Str) (zone_name : Str) : FindResult :=
  if truthyO rid then
    let r := rid.getD []
    match api.getRecord zid r with
    | none => ⟨[.getRecord zid r], false, .exit 1⟩
    | some rec => ⟨[.getRecord zid r], false, .ok (r, rec)⟩
  else if !truthyO name || !truthyO rtype then
    ⟨[], false, .exit 2⟩
  else
    let n := name.getD []
    let t := rtype.getD []
    let fqdn := if truthyS zone_name then normalize_name zone_name n else n
    let q := ApiReq.queryByTypeName zid t fqdn
    match api.queryRecords zid t fqdn with
    | none => ⟨[q], false, .exit 1⟩
    | some ms =>
      match ms with
      | [] => ⟨[q], false, .exit 3⟩
      | [m] => ⟨[q], false, .ok (m.id, m)⟩
      | _ :: _ :: _ =>
        if !tty then ⟨[q], false, .exit 3⟩
        else
          let choice := pyStrip inp
          if choice.isEmpty then ⟨[q], true, .exit 0⟩
          else
            match ms.find? (fun m => m.id == choice) with
            | none => ⟨[q], true, .exit 2⟩
            | some sel => ⟨[q], true, .ok (choice, sel)⟩

/-- Source confirm (lines 145-150): the first component says whether the
confirmation prompt was shown; a stripped lowercased answer outside y / yes
exits with code 0. -/
def confirm (yes : Bool) (ans : Str) : Bool × Outcome Unit :=
  if yes then (false, .ok ())
  else if pyLower (pyStrip ans) ∈ (["y".toList, "yes".toList] : List Str) then
    (true, .ok ())
  else (true, .exit 0)

/-- Result of a whole command: requests issued, whether the confirmation
prompt was shown, and the outcome. -/
structure CmdResult where
  reqs : List ApiReq
  confirmPrompted : Bool
  outcome : Outcome Unit
deriving DecidableEq

/-- Whether a request mutates remote state (POST, PUT or DELETE). -/
def ApiReq.isMutating : ApiReq → Bool
  | .createRecord _ _ => true
  | .updateRecord _ _ _ => true
  | .deleteRecord _ _ => true
  | _ => false

/-- Number of mutating requests in a trace. -/
def countMutating (rs : List ApiReq) : Nat := (rs.filter ApiReq.isMutating).length

/-- Source cmd_add (lines 152-161): zone lookup, name normalization, type
uppercasing, payload build, confirmation gate, then the create call. -/
def cmd_add (api : Api) (ans : Str) (zone name rtype content : Str)
    (ttl : Option Int) (proxied : Option Bool) (yes : Bool) : CmdResult :=
  match zone_id api zone with
  | (rs, .exit c) => ⟨rs, false, .exit c⟩
  | (rs, .ok zid) =>
    let payload := build_payload (normalize_name zone name) (pyUpper rtype)
        content ttl proxied
    match confirm yes ans with
    | (p, .exit c) => ⟨rs, p, .exit c⟩
    | (p, .ok _) =>
      ⟨rs ++ [.createRecord zid payload], p,
        match api.createRecord zid payload with
        | none => .exit 1
        | some _ => .ok ()⟩

/-- Source cmd_update (lines 163-179): zone lookup, type uppercasing, record
resolution, field merge, confirmation gate, then the update call. -/
def cmd_update (api : Api) (tty : Bool) (inp ans : Str) (zone : Str)
    (rid name rtype content : Option Str) (ttl : Option Int)
    (proxied : Option Bool) (yes : Bool) : CmdResult :=
  match zone_id api zone with
  | (rs, .exit c) => ⟨rs, false, .exit c⟩
  | (rs, .ok zid) =>
    let rtype1 : Option Str := match rtype with
      | some s => if truthyS s then some (pyUpper s) else none
      | none => none
    let fr := find_record api tty inp zid rid name rtype1 zone
    match fr.outcome with
    | .exit c => ⟨rs ++ fr.reqs, false, .exit c⟩
    | .ok (rid2, current) =>
      let payload := cmd_update_payload zone name rtype content ttl proxied current
      match confirm yes ans with
      | (p, .exit c) => ⟨rs ++ fr.reqs, p, .exit c⟩
      | (p, .ok _) =>
        ⟨rs ++ fr.reqs ++ [.updateRecord zid rid2 payload], p,
          match api.updateRecord zid rid2 payload with
          | none => .exit 1
          | some _ => .ok ()⟩

/-- Source cmd_delete (lines 181-188): zone lookup, type uppercasing, record
resolution, confirmation gate, then the delete call. -/
def cmd_delete (api : Api) (tty : Bool) (inp ans : Str) (zone : Str)
    (rid name rtype : Option Str) (yes : Bool) : CmdResult :=
  match zone_id api zone with
  | (rs, .exit c) => ⟨rs, false, .exit c⟩
  | (rs, .ok zid) =>
    let rtype1 : Option Str := match rtype with
      | some s => if truthyS s then some (pyUpper s) else none
      | none => none
    let fr := find_record api tty inp zid rid name rtype1 zone
    match fr.outcome with
    | .exit c => ⟨rs ++ fr.reqs, false, .exit c⟩
    | .ok (rid2, _) =>
      match confirm yes ans with
      | (p, .exit c) => ⟨rs ++ fr.reqs, p, .exit c⟩
      | (p, .ok _) =>
        ⟨rs ++ fr.reqs ++ [.deleteRecord zid rid2], p,
          match api.deleteRecord zid rid2 with
          | none => .exit 1
          | some _ => .ok ()⟩

/-- Source paginate_records loop (lines 78-86) with explicit fuel: none is
returned only when fuel runs out, which never happens against an endpoint
reporting a bounded page count. -/
def paginate_loop (api : Api) (zid : Str) (rt : Option Str) :
    Nat → Nat → List ApiReq → List DnsRecord →
      Option (List ApiReq × Outcome (List DnsRecord))
  | 0, _, _, _ => none
  | fuel + 1, page, reqs, out =>
    let q := ApiReq.listPage zid page 100 rt
    match api.listPage zid page 100 rt with
    | none => some (reqs ++ [q], .exit 1)
    | some pg =>
      let out2 := out ++ pg.result
      if pg.total_pages.getD 1 ≤ page then some (reqs ++ [q], .ok out2)
      else paginate_loop api zid rt fuel (page + 1) (reqs ++ [q]) out2

/-- Source paginate_records (lines 75-86): page size 100, starting at page 1;
the type parameter is sent only when truthy. -/
def paginate_records (api : Api) (zid : Str) (rtype : Option Str) (fuel : Nat) :
    Option (List ApiReq × Outcome (List DnsRecord)) :=
  paginate_loop api zid (if truthyO rtype then rtype else none) fuel 1 [] []

/-- Python substring membership needle in hay. -/
def pyContains (needle hay : Str) : Bool := decide (needle <:+: hay)

/-- Source cmd_list (lines 136-143): zone lookup, full paginated listing, then
an optional client-side case-insensitive name substring filter; yields the
records that would be rendered. -/
def cmd_list (api : Api) (zone : Str) (rtype name_substr : Option Str)
    (fuel : Nat) : Option (List ApiReq × Outcome (List DnsRecord)) :=
  match zone_id api zone with
  | (rs, .exit c) => some (rs, .exit c)
  | (rs, .ok zid) =>
    match paginate_records api zid rtype fuel with
    | none => none
    | some (rs2, .exit c) => some (rs ++ rs2, .exit c)
    | some (rs2, .ok recs) =>
      let recs2 :=
        if truthyO name_substr then
          recs.filter (fun r =>
            pyContains (pyLower (name_substr.getD [])) (pyLower r.name))
        else recs
      some (rs ++ rs2, .ok recs2)

/-- Source cmd_zones loop (lines 127-134) with explicit fuel: the zones command
walks the zones endpoint with its own page loop of size 50. -/
def cmd_zones_loop (api : Api) :
    Nat → Nat → List ApiReq → List Zone →
      Option (List ApiReq × Outcome (List Zone))
  | 0, _, _, _ => none
  | fuel + 1, page, reqs, acc =>
    let q := ApiReq.listZonesPage page 50
    match api.getZonesPage page 50 with
    | none => some (reqs ++ [q], .exit 1)
    | some pg =>
      let acc2 := acc ++ pg.result
      if pg.total_pages.getD 1 ≤ page then some (reqs ++ [q], .ok acc2)
      else cmd_zones_loop api fuel (page + 1) (reqs ++ [q]) acc2

/-- Source cmd_zones (lines 125-134): yields the zones printed. -/
def cmd_zones (api : Api) (fuel : Nat) : Option (List ApiReq × Outcome (List Zone)) :=
  cmd_zones_loop api fuel 1 [] []

/-- Source read_token (lines 27-36): env is the value of CF_API_TOKEN (None
when unset), fs maps a file name to its contents (none when opening or reading
raises); f.readline().strip() is the stripped first line of the contents. -/
def read_token (env tf : Option Str) (fs : Str → Option Str) : Outcome Str :=
  if truthyO env then .ok (pyStrip (env.getD []))
  else if truthyO tf then
    match fs (tf.getD []) with
    | some content => .ok (pyStrip (content.takeWhile (fun c => c != '\n')))
    | none => .exit 2
  else .exit 2

/-- A concrete record used by the witnesses. -/
def rec1 : DnsRecord :=
  ⟨"id1".toList, "A".toList, "www.example.com".toList, "1.2.3.4".toList,
    some 300, some true⟩

/-- A second concrete record with the same type and name as rec1. -/
def rec2 : DnsRecord :=
  ⟨"id2".toList, "A".toList, "www.example.com".toList, "5.6.7.8".toList,
    some 300, some false⟩

/-- A concrete zone used by the witnesses. -/
def zone1 : Zone := ⟨"z1".toList, "example.com".toList⟩

/-- A concrete environment: one zone, an empty (name, type) query result, and a
two-page record listing. -/
def apiA : Api where
  getZones := fun _ => some [zone1]
  getZonesPage := fun _ _ => some ⟨[zone1], some 2⟩
  getRecord := fun _ _ => some rec1
  queryRecords := fun _ _ _ => some []
  listPage := fun _ p _ _ => some ⟨if p = 1 then [rec1] else [rec2], some 2⟩
  createRecord := fun _ _ => some rec1
  updateRecord := fun _ _ _ => some rec1
  deleteRecord := fun _ _ => some ()

/-- Like apiA but the (name, type) query returns two candidates. -/
def apiM : Api := { apiA with queryRecords := fun _ _ _ => some [rec1, rec2] }

/-- Like apiA but the (name, type) query returns one candidate, while the paged
listing holds a second record with the same type and name on page 2. -/
def api1 : Api := { apiA with queryRecords := fun _ _ _ => some [rec1] }

lemma truthyO_some {s : Str} (h : s ≠ []) : truthyO (some s) = true := by
  simp [truthyO, truthyS_of_ne_nil h]

lemma truthyO_none : truthyO none = false := rfl

lemma isEmpty_false {l : Str} (h : l ≠ []) : l.isEmpty = false := by
  cases l with
  | nil => exact absurd rfl h
  | cons a l => rfl

/-- The id path of find_record: with a truthy rid the result is the by-id fetch
alone, whatever name and type are supplied. -/
lemma find_record_rid (api : Api) (tty : Bool) (inp : Str) (zid : Str) {r : Str}
    (hr : r ≠ []) (name rtype : Option Str) (zn : Str) :
    find_record api tty inp zid (some r) name rtype zn =
      match api.getRecord zid r with
      | none => ⟨[.getRecord zid r], false, .exit 1⟩
      | some rec => ⟨[.getRecord zid r], false, .ok (r, rec)⟩ := by
  cases hg : api.getRecord zid r <;>
    simp [find_record, truthyO_some hr, hg]

lemma zone_id_ok {api : Api} {zone : Str} {z : Zone} {zs : List Zone}
    (hz : api.getZones zone = some (z :: zs)) :
    zone_id api zone = ([.listZonesByName zone], .ok z.id) := by
  simp [zone_id, hz]

/-- Claim C2: in (name, type) resolution, zero candidates exit with code 3, one
candidate is returned without prompting, and several candidates in a
non-interactive session exit with code 3 without prompting. -/
theorem find_record_by_name_type (api : Api) (tty : Bool) (inp : Str) (zid : Str)
    (n t zone_name : Str) (ms : List DnsRecord)
    (hn : n ≠ []) (ht : t ≠ [])
    (hq : api.queryRecords zid t
        (if truthyS zone_name then normalize_name zone_name n else n) = some ms) :
    (ms = [] →
      (find_record api tty inp zid none (some n) (some t) zone_name).outcome = .exit 3
      ∧ (find_record api tty inp zid none (some n) (some t) zone_name).prompted = false)
    ∧ (∀ m, ms = [m] →
      (find_record api tty inp zid none (some n) (some t) zone_name).outcome = .ok (m.id, m)
      ∧ (find_record api tty inp zid none (some n) (some t) zone_name).prompted = false)
    ∧ (2 ≤ ms.length → tty = false →
      (find_record api tty inp zid none (some n) (some t) zone_name).outcome = .exit 3
      ∧ (find_record api tty inp zid none (some n) (some t) zone_name).prompted = false) := by
  have hn2 := truthyO_some hn
  have ht2 := truthyO_some ht
  refine ⟨fun hms => ?_, fun m hms => ?_, fun hlen htty => ?_⟩
  · subst hms
    simp [find_record, hn2, ht2, truthyO_none, hq]
  · subst hms
    simp [find_record, hn2, ht2, truthyO_none, hq]
  · subst htty
    cases ms with
    | nil => simp at hlen
    | cons a l =>
      cases l with
      | nil => simp at hlen
      | cons b l2 => simp [find_record, hn2, ht2, truthyO_none, hq]

/-- Witness for C2: against apiA the query for (www, A) in example.com returns
no candidate and resolution exits with code 3 without prompting. -/
theorem find_record_by_name_type_witness :
    (find_record apiA false [] "z1".toList none (some "www".toList)
        (some "A".toList) "example.com".toList).outcome = .exit 3
    ∧ (find_record apiA false [] "z1".toList none (some "www".toList)
        (some "A".toList) "example.com".toList).prompted = false := by
  have h := find_record_by_name_type apiA false [] "z1".toList "www".toList
      "A".toList "example.com".toList [] (by decide) (by decide) rfl
  exact h.1 rfl

/-- Claim C3: with a truthy explicit record id, find_record issues only the
by-id fetch and its whole result is independent of the supplied name and
type. -/
theorem find_record_by_id_ignores_name_type (api : Api) (tty : Bool) (inp : Str)
    (zid r : Str) (hr : r ≠ []) (n1 t1 n2 t2 : Option Str) (zn : Str) :
    find_record api tty inp zid (some r) n1 t1 zn
        = find_record api tty inp zid (some r) n2 t2 zn
    ∧ (find_record api tty inp zid (some r) n1 t1 zn).reqs = [.getRecord zid r] := by
  refine ⟨?_, ?_⟩
  · rw [find_record_rid api tty inp zid hr n1 t1 zn,
        find_record_rid api tty inp zid hr n2 t2 zn]
  · rw [find_record_rid api tty inp zid hr n1 t1 zn]
    cases api.getRecord zid r <;> rfl

/-- Witness for C3: supplying name a and type b alongside id id1 gives the same
result as supplying no name and type at all, via the single by-id fetch. -/
theorem find_record_by_id_ignores_name_type_witness :
    find_record apiA true "x".toList "z1".toList (some "id1".toList)
        (some "a".toList) (some "b".toList) "example.com".toList
      = find_record apiA true "x".toList "z1".toList (some "id1".toList) none none
        "example.com".toList
    ∧ (find_record apiA true "x".toList "z1".toList (some "id1".toList)
        (some "a".toList) (some "b".toList) "example.com".toList).reqs
      = [.getRecord "z1".toList "id1".toList] :=
  find_record_by_id_ignores_name_type apiA true "x".toList "z1".toList "id1".toList
    (by decide) (some "a".toList) (some "b".toList) none none "example.com".toList

/-- Claim C9: zone resolution issues exactly one exact-name query; an empty
result set exits with code 3 through the single failure branch (so absent and
inaccessible zones are reported identically), and a non-empty result set
deterministically yields the id of the first entry. -/
theorem zone_id_spec (api : Api) (zn : Str) :
    (api.getZones zn = some [] → zone_id api zn = ([.listZonesByName zn], .exit 3))
    ∧ (∀ z zs, api.getZones zn = some (z :: zs) →
        zone_id api zn = ([.listZonesByName zn], .ok z.id))
    ∧ (zone_id api zn).1 = [.listZonesByName zn] := by
  refine ⟨fun h => by simp [zone_id, h], fun z zs h => by simp [zone_id, h], ?_⟩
  cases h : api.getZones zn with
  | none => simp [zone_id, h]
  | some l => cases l <;> simp [zone_id, h]

/-- Witness for C9: against apiA the zone query returns one match and zone_id
returns its id z1 after the single request. -/
theorem zone_id_spec_witness :
    zone_id apiA "example.com".toList
      = ([.listZonesByName "example.com".toList], .ok "z1".toList) :=
  (zone_id_spec apiA "example.com".toList).2.1 zone1 [] rfl

/-- Claim C10: an empty CF_API_TOKEN behaves exactly like an unset one; a
non-empty value is used directly after stripping; with neither source the
process exits with code 2, as it does when the file is unreadable; a readable
file yields its stripped first line. -/
theorem read_token_spec (fs : Str → Option Str) :
    (∀ tf, read_token (some []) tf fs = read_token none tf fs)
    ∧ (∀ s, s ≠ [] → ∀ tf, read_token (some s) tf fs = .ok (pyStrip s))
    ∧ read_token none none fs = .exit 2
    ∧ (∀ f, f ≠ [] → fs f = none → read_token none (some f) fs = .exit 2)
    ∧ (∀ f c, f ≠ [] → fs f = some c →
        read_token none (some f) fs
          = .ok (pyStrip (c.takeWhile (fun ch => ch != '\n')))) := by
  refine ⟨fun tf => ?_, fun s hs tf => ?_, rfl, fun f hf h => ?_, fun f c hf h => ?_⟩
  · simp [read_token, truthyO, truthyS]
  · simp [read_token, truthyO_some hs]
  · simp [read_token, truthyO, truthyS_of_ne_nil hf, h]
  · simp [read_token, truthyO, truthyS_of_ne_nil hf, h]

/-- File system with one readable token file used by the C10 witness. -/
def fs0 : Str → Option Str :=
  fun f => if f = "tok.txt".toList then some "  secret\nmore".toList else none

/-- Witness for C10: an empty environment value falls back to the token file,
whose stripped first line is the token secret. -/
theorem read_token_spec_witness :
    read_token (some []) (some "tok.txt".toList) fs0
        = read_token none (some "tok.txt".toList) fs0
    ∧ read_token none (some "tok.txt".toList) fs0 = .ok "secret".toList := by
  have h := read_token_spec fs0
  refine ⟨h.1 (some "tok.txt".toList), ?_⟩
  have h2 := h.2.2.2.2 "tok.txt".toList "  secret\nmore".toList (by decide) (by decide)
  rw [h2]; decide

lemma confirm_yes (ans : Str) : confirm true ans = (false, .ok ()) := rfl

lemma confirm_no {ans : Str}
    (h : pyLower (pyStrip ans) ∉ (["y".toList, "yes".toList] : List Str)) :
    confirm false ans = (true, .exit 0) := by
  simp only [confirm, Bool.false_eq_true, if_false]
  rw [if_neg h]

/-- Claim C4: for add, update and delete, the skip flag suppresses the
confirmation prompt and lets the one mutating call through, while without the
flag any non-affirmative answer issues zero mutating calls and exits with
code 0. -/
theorem confirm_gate_mutations (api : Api) (tty : Bool) (inp ans : Str)
    (zone name rtype content : Str) (ttl : Option Int) (proxied : Option Bool)
    (r : Str) (uname urtype ucontent : Option Str) (uttl : Option Int)
    (uproxied : Option Bool) (z : Zone) (zs : List Zone) (rec : DnsRecord)
    (hz : api.getZones zone = some (z :: zs))
    (hr : r ≠ [])
    (hg : api.getRecord z.id r = some rec) :
    ((cmd_add api ans zone name rtype content ttl proxied true).confirmPrompted = false
      ∧ countMutating (cmd_add api ans zone name rtype content ttl proxied true).reqs = 1)
    ∧ ((cmd_update api tty inp ans zone (some r) uname urtype ucontent uttl uproxied
          true).confirmPrompted = false
      ∧ countMutating (cmd_update api tty inp ans zone (some r) uname urtype ucontent
          uttl uproxied true).reqs = 1)
    ∧ ((cmd_delete api tty inp ans zone (some r) uname urtype true).confirmPrompted = false
      ∧ countMutating (cmd_delete api tty inp ans zone (some r) uname urtype true).reqs = 1)
    ∧ (pyLower (pyStrip ans) ∉ (["y".toList, "yes".toList] : List Str) →
      ((cmd_add api ans zone name rtype content ttl proxied false).outcome = .exit 0
        ∧ countMutating (cmd_add api ans zone name rtype content ttl proxied false).reqs = 0)
      ∧ ((cmd_update api tty inp ans zone (some r) uname urtype ucontent uttl uproxied
            false).outcome = .exit 0
        ∧ countMutating (cmd_update api tty inp ans zone (some r) uname urtype ucontent
            uttl uproxied false).reqs = 0)
      ∧ ((cmd_delete api tty inp ans zone (some r) uname urtype false).outcome = .exit 0
        ∧ countMutating (cmd_delete api tty inp ans zone (some r) uname urtype
            false).reqs = 0)) := by
  have hzid := zone_id_ok hz
  have hfr : ∀ (nm rt : Option Str),
      find_record api tty inp z.id (some r) nm rt zone
        = ⟨[.getRecord z.id r], false, .ok (r, rec)⟩ := by
    intro nm rt
    rw [find_record_rid api tty inp z.id hr nm rt zone, hg]
  refine ⟨?_, ?_, ?_, fun hna => ⟨?_, ?_, ?_⟩⟩
  · simp [cmd_add, hzid, confirm_yes, countMutating, ApiReq.isMutating]
  · simp [cmd_update, hzid, hfr, confirm_yes, countMutating, ApiReq.isMutating]
  · simp [cmd_delete, hzid, hfr, confirm_yes, countMutating, ApiReq.isMutating]
  · simp [cmd_add, hzid, confirm_no hna, countMutating, ApiReq.isMutating]
  · simp [cmd_update, hzid, hfr, confirm_no hna, countMutating, ApiReq.isMutating]
  · simp [cmd_delete, hzid, hfr, confirm_no hna, countMutating, ApiReq.isMutating]

/-- Witness for C4: against apiA, answering n leaves the add command with zero
mutating calls and exit code 0, while the skip flag issues the one create call
without prompting. -/
theorem confirm_gate_mutations_witness :
    ((cmd_add apiA "n".toList "example.com".toList "www".toList "A".toList
        "1.2.3.4".toList (some 300) (some true) false).outcome = .exit 0
      ∧ countMutating (cmd_add apiA "n".toList "example.com".toList "www".toList
          "A".toList "1.2.3.4".toList (some 300) (some true) false).reqs = 0)
    ∧ ((cmd_add apiA "n".toList "example.com".toList "www".toList "A".toList
        "1.2.3.4".toList (some 300) (some true) true).confirmPrompted = false
      ∧ countMutating (cmd_add apiA "n".toList "example.com".toList "www".toList
          "A".toList "1.2.3.4".toList (some 300) (some true) true).reqs = 1) := by
  have h := confirm_gate_mutations apiA false [] "n".toList "example.com".toList
      "www".toList "A".toList "1.2.3.4".toList (some 300) (some true)
      "id1".toList none none none none none zone1 [] rec1 rfl (by decide) rfl
  exact ⟨(h.2.2.2 (by decide)).1, h.1⟩

/-- Loop invariant of paginate_loop against an endpoint that reports a constant
total page count k: starting at page p ≤ k with enough fuel, the loop requests
pages p through k in order and appends their results in order. -/
lemma paginate_loop_const (api : Api) (zid : Str) (rt : Option Str) (k : Nat)
    (items : Nat → List DnsRecord)
    (hapi : ∀ p, api.listPage zid p 100 rt = some ⟨items p, some k⟩) :
    ∀ fuel p reqs out, p ≤ k → k - p < fuel →
      paginate_loop api zid rt fuel p reqs out =
        some (reqs ++ (List.range' p (k + 1 - p)).map
            (fun q => ApiReq.listPage zid q 100 rt),
          .ok (out ++ ((List.range' p (k + 1 - p)).map items).flatten)) := by
  intro fuel
  induction fuel with
  | zero => intro p reqs out _ h3; omega
  | succ f ih =>
    intro p reqs out h2 h3
    by_cases hpk : k ≤ p
    · have hpk2 : p = k := le_antisymm h2 hpk
      subst hpk2
      have e1 : p + 1 - p = 1 := by omega
      simp only [paginate_loop, hapi p, Option.getD_some]
      rw [if_pos (le_refl p), e1]
      simp [List.range']
    · simp only [paginate_loop, hapi p, Option.getD_some]
      rw [if_neg hpk]
      rw [ih (p + 1) (reqs ++ [ApiReq.listPage zid p 100 rt]) (out ++ items p)
          (by omega) (by omega)]
      have e2 : k + 1 - (p + 1) = k - p := by omega
      have e1 : k + 1 - p = (k - p) + 1 := by omega
      rw [e2, e1]
      simp [List.range']

/-- Claim C6: against a listing endpoint reporting total_pages = k, the lister
issues exactly the page requests 1 through k in order with page size 100 and
returns the in-order concatenation of the per-page results. -/
theorem paginate_records_walks_pages (api : Api) (zid : Str) (rtype : Option Str)
    (k fuel : Nat) (items : Nat → List DnsRecord) (hk : 1 ≤ k) (hfuel : k ≤ fuel)
    (hapi : ∀ p, api.listPage zid p 100 (if truthyO rtype then rtype else none)
        = some ⟨items p, some k⟩) :
    paginate_records api zid rtype fuel =
      some ((List.range' 1 k).map
          (fun p => ApiReq.listPage zid p 100 (if truthyO rtype then rtype else none)),
        .ok (((List.range' 1 k).map items).flatten)) := by
  have h := paginate_loop_const api zid (if truthyO rtype then rtype else none) k
      items hapi fuel 1 [] [] hk (by omega)
  rw [paginate_records, h]
  have e : k + 1 - 1 = k := by omega
  rw [e]
  simp

/-- Witness for C6: against apiA, which reports two pages, the lister issues
page requests 1 and 2 and returns the two page results concatenated. -/
theorem paginate_records_walks_pages_witness :
    paginate_records apiA "z1".toList none 5 =
      some ([ApiReq.listPage "z1".toList 1 100 none,
             ApiReq.listPage "z1".toList 2 100 none],
        .ok [rec1, rec2]) := by
  have h := paginate_records_walks_pages apiA "z1".toList none 2 5
      (fun p => if p = 1 then [rec1] else [rec2]) (by decide) (by decide)
      (fun p => rfl)
  rw [h]; decide

/-- Claim C7: with several candidates in an interactive session, a blank
(stripped) input exits cleanly with code 0 after the prompt; a non-blank typed
value matching no candidate id exits with code 2; a non-blank typed value whose
exact match in the candidate set is sel returns (typed value, sel). -/
theorem find_record_disambiguation (api : Api) (inp : Str) (zid : Str)
    (n t zone_name : Str) (ms : List DnsRecord)
    (hn : n ≠ []) (ht : t ≠ [])
    (hq : api.queryRecords zid t
        (if truthyS zone_name then normalize_name zone_name n else n) = some ms)
    (hlen : 2 ≤ ms.length) :
    (pyStrip inp = [] →
      (find_record api true inp zid none (some n) (some t) zone_name).outcome = .exit 0
      ∧ (find_record api true inp zid none (some n) (some t) zone_name).prompted = true)
    ∧ (pyStrip inp ≠ [] →
        ms.find? (fun m => m.id == pyStrip inp) = none →
        (find_record api true inp zid none (some n) (some t) zone_name).outcome = .exit 2)
    ∧ (∀ sel, pyStrip inp ≠ [] →
        ms.find? (fun m => m.id == pyStrip inp) = some sel →
        (find_record api true inp zid none (some n) (some t) zone_name).outcome
          = .ok (pyStrip inp, sel)) := by
  have hn2 := truthyO_some hn
  have ht2 := truthyO_some ht
  cases ms with
  | nil => simp at hlen
  | cons a l =>
    cases l with
    | nil => simp at hlen
    | cons b l2 =>
      refine ⟨fun hblank => ?_, fun hnb hfind => ?_, fun sel hnb hfind => ?_⟩
      · simp [find_record, hn2, ht2, truthyO_none, hq, hblank]
      · simp [find_record, hn2, ht2, truthyO_none, hq, isEmpty_false hnb, hfind]
      · simp [find_record, hn2, ht2, truthyO_none, hq, isEmpty_false hnb, hfind]

/-- Witness for C7: against apiM (candidates rec1 and rec2), typing id2 returns
rec2. -/
theorem find_record_disambiguation_witness :
    (find_record apiM true "id2".toList "z1".toList none (some "www".toList)
        (some "A".toList) "example.com".toList).outcome
      = .ok ("id2".toList, rec2) := by
  have h := find_record_disambiguation apiM "id2".toList "z1".toList "www".toList
      "A".toList "example.com".toList [rec1, rec2] (by decide) (by decide) rfl
      (by decide)
  exact h.2.2 rec2 (by decide) (by decide)

/-- Claim C8 as stated is false: against api1 the (name, type) resolution of
(www, A) issues one unpaginated filtered query and succeeds on the single
candidate of that one response, although walking all reported pages through the
lister finds two records matching the same type and name — so resolution does
not obtain its candidates by walking all pages via the lister. -/
theorem find_record_not_paged_counterexample :
    (find_record api1 false [] "z1".toList none (some "www".toList)
        (some "A".toList) "example.com".toList).outcome = .ok (rec1.id, rec1)
    ∧ (find_record api1 false [] "z1".toList none (some "www".toList)
        (some "A".toList) "example.com".toList).reqs
      = [.queryByTypeName "z1".toList "A".toList "www.example.com".toList]
    ∧ paginate_records api1 "z1".toList (some "A".toList) 5
      = some ([.listPage "z1".toList 1 100 (some "A".toList),
               .listPage "z1".toList 2 100 (some "A".toList)],
          .ok [rec1, rec2])
    ∧ ([rec1, rec2].filter
        (fun r => r.rtype == "A".toList && r.name == "www.example.com".toList)).length
      = 2 := by decide

/-- Loop invariant of the page loop inside cmd_zones against an endpoint that
reports a constant total page count k: it requests pages p through k in order
at page size 50 and appends their results in order. -/
lemma cmd_zones_loop_const (api : Api) (k : Nat) (zps : Nat → List Zone)
    (hapi : ∀ p, api.getZonesPage p 50 = some ⟨zps p, some k⟩) :
    ∀ fuel p reqs acc, p ≤ k → k - p < fuel →
      cmd_zones_loop api fuel p reqs acc =
        some (reqs ++ (List.range' p (k + 1 - p)).map
            (fun q => ApiReq.listZonesPage q 50),
          .ok (acc ++ ((List.range' p (k + 1 - p)).map zps).flatten)) := by
  intro fuel
  induction fuel with
  | zero => intro p reqs acc _ h3; omega
  | succ f ih =>
    intro p reqs acc h2 h3
    by_cases hpk : k ≤ p
    · have hpk2 : p = k := le_antisymm h2 hpk
      subst hpk2
      have e1 : p + 1 - p = 1 := by omega
      simp only [cmd_zones_loop, hapi p, Option.getD_some]
      rw [if_pos (le_refl p), e1]
      simp [List.range']
    · simp only [cmd_zones_loop, hapi p, Option.getD_some]
      rw [if_neg hpk]
      rw [ih (p + 1) (reqs ++ [ApiReq.listZonesPage p 50]) (acc ++ zps p)
          (by omega) (by omega)]
      have e2 : k + 1 - (p + 1) = k - p := by omega
      have e1 : k + 1 - p = (k - p) + 1 := by omega
      rw [e2, e1]
      simp [List.range']

/-- Claim C8 amended: the record lister is the only paginated path used for
full record sets of a zone — the list command obtains its records exactly from
the lister — but (name, type) resolution does not page: it issues the single
unpaginated filtered query whatever the environment, and the zones command
carries its own separate page loop (size 50) over the zones endpoint. -/
theorem pagination_amended :
    (∀ (api : Api) (tty : Bool) (inp : Str) (zid : Str) (n t zn : Str)
        (ms : List DnsRecord),
      n ≠ [] → t ≠ [] →
      api.queryRecords zid t (if truthyS zn then normalize_name zn n else n) = some ms →
      (find_record api tty inp zid none (some n) (some t) zn).reqs
        = [.queryByTypeName zid t (if truthyS zn then normalize_name zn n else n)])
    ∧ (∀ (api : Api) (zone : Str) (rt : Option Str) (fuel : Nat) (z : Zone)
        (zs : List Zone) (rs2 : List ApiReq) (recs : List DnsRecord),
      api.getZones zone = some (z :: zs) →
      paginate_records api z.id rt fuel = some (rs2, .ok recs) →
      cmd_list api zone rt none fuel = some ([.listZonesByName zone] ++ rs2, .ok recs))
    ∧ (∀ (api : Api) (k fuel : Nat) (zps : Nat → List Zone),
      1 ≤ k → k ≤ fuel →
      (∀ p, api.getZonesPage p 50 = some ⟨zps p, some k⟩) →
      cmd_zones api fuel =
        some ((List.range' 1 k).map (fun p => ApiReq.listZonesPage p 50),
          .ok (((List.range' 1 k).map zps).flatten))) := by
  refine ⟨?_, ?_, ?_⟩
  · intro api tty inp zid n t zn ms hn ht hq
    have hn2 := truthyO_some hn
    have ht2 := truthyO_some ht
    cases ms with
    | nil => simp [find_record, hn2, ht2, truthyO_none, hq]
    | cons a l =>
      cases l with
      | nil => simp [find_record, hn2, ht2, truthyO_none, hq]
      | cons b l2 =>
        cases tty with
        | false => simp [find_record, hn2, ht2, truthyO_none, hq]
        | true =>
          by_cases hb : (pyStrip inp).isEmpty
          · simp [find_record, hn2, ht2, truthyO_none, hq, hb]
          · cases hf : (a :: b :: l2).find? (fun m => m.id == pyStrip inp) <;>
              simp [find_record, hn2, ht2, truthyO_none, hq, hb, hf]
  · intro api zone rt fuel z zs rs2 recs hz hpag
    simp [cmd_list, zone_id_ok hz, hpag, truthyO_none]
  · intro api k fuel zps hk hfuel hapi
    have h := cmd_zones_loop_const api k zps hapi fuel 1 [] [] hk (by omega)
    rw [cmd_zones, h]
    have e : k + 1 - 1 = k := by omega
    rw [e]
    simp

/-- Witness for the amended C8: against api1, resolution of (www, A) issues one
unpaginated query, and the zones command against apiA issues its own page
requests 1 and 2 of size 50. -/
theorem pagination_amended_witness :
    (find_record api1 false [] "z1".toList none (some "www".toList)
        (some "A".toList) "example.com".toList).reqs
      = [.queryByTypeName "z1".toList "A".toList "www.example.com".toList]
    ∧ cmd_zones apiA 5
      = some ([.listZonesPage 1 50, .listZonesPage 2 50], .ok [zone1, zone1]) := by
  constructor
  · have h1 := pagination_amended.1 api1 false [] "z1".toList "www".toList
        "A".toList "example.com".toList [rec1] (by decide) (by decide) rfl
    exact h1.trans (by decide)
  · have h3 := pagination_amended.2.2 apiA 2 5 (fun _ => [zone1]) (by decide)
        (by decide) (fun p => rfl)
    exact h3.trans (by decide)

end CfDns
